import Mathlib

/-
Verification development for the observability-otel repository: three Flask
services (frontend, cart-service, product-service) instrumented manually with
an OpenTelemetry-style telemetry core.  The request handlers are embedded from
the Python sources; the telemetry library components the handlers call (the
Context Codec, Span Engine, Metric Aggregator and Batch Export Pipeline) are
not part of src/ and are modelled from the specification.
-/

namespace Otel

/-- A trace context as in spec section 3: a 128-bit trace id, a 64-bit span id
and a sampled flag. -/
structure TraceContext where
  traceId : Nat
  spanId : Nat
  sampled : Bool
deriving DecidableEq, Repr

/-- Modelled from the spec: the Context Codec (the opentelemetry.propagate
library, absent from src/) renders ids as lowercase hex.  Digit of a nibble,
via the character codes (48 is the code of the zero digit, 87 + 10 that of
the letter a). -/
def hexDigitChar (d : Nat) : Char :=
  if d < 10 then Char.ofNat (48 + d) else Char.ofNat (87 + d)

/-- Numeric value of a lowercase hex digit character; `none` when the
character is not such a digit. -/
def hexVal (c : Char) : Option Nat :=
  if 48 ≤ c.toNat ∧ c.toNat ≤ 57 then some (c.toNat - 48)
  else if 97 ≤ c.toNat ∧ c.toNat ≤ 102 then some (c.toNat - 87)
  else none

/-- Fixed-width hex rendering, most significant digit first. -/
def toHexAux : Nat → Nat → List Char
  | 0, _ => []
  | w + 1, n => toHexAux w (n / 16) ++ [hexDigitChar (n % 16)]

/-- Hex parser with accumulator; fails on the first non-hex character. -/
def parseHexAcc : List Char → Nat → Option Nat
  | [], acc => some acc
  | c :: cs, acc =>
    match hexVal c with
    | some d => parseHexAcc cs (acc * 16 + d)
    | none => none

/-- Parse a nonempty hex digit string; the empty string is malformed. -/
def parseHexChars : List Char → Option Nat
  | [] => none
  | c :: cs => parseHexAcc (c :: cs) 0

/-- Split a character list into the groups separated by dashes. -/
def splitOnDash : List Char → List (List Char)
  | [] => [[]]
  | c :: cs =>
    if c = '-' then [] :: splitOnDash cs
    else
      match splitOnDash cs with
      | [] => [[c]]
      | g :: gs => (c :: g) :: gs

theorem hexVal_hexDigitChar (d : Nat) (h : d < 16) : hexVal (hexDigitChar d) = some d := by
  interval_cases d <;> rfl

theorem hexDigitChar_ne_dash (d : Nat) (h : d < 16) : hexDigitChar d ≠ '-' := by
  interval_cases d <;> decide

theorem toHexAux_no_dash (w : Nat) : ∀ n, ∀ c ∈ toHexAux w n, c ≠ '-' := by
  induction w with
  | zero => intro n c hc; simp [toHexAux] at hc
  | succ w ih =>
    intro n c hc
    simp only [toHexAux, List.mem_append, List.mem_singleton] at hc
    rcases hc with h | h
    · exact ih (n / 16) c h
    · subst h
      exact hexDigitChar_ne_dash _ (Nat.mod_lt n (by norm_num))

theorem toHexAux_length (w : Nat) : ∀ n, (toHexAux w n).length = w := by
  induction w with
  | zero => intro n; rfl
  | succ w ih => intro n; simp [toHexAux, ih]

theorem splitOnDash_no_dash (a : List Char) (h : ∀ c ∈ a, c ≠ '-') :
    splitOnDash a = [a] := by
  induction a with
  | nil => rfl
  | cons c cs ih =>
    have hc : c ≠ '-' := h c (List.mem_cons_self c cs)
    have ih2 := ih (fun x hx => h x (List.mem_cons_of_mem _ hx))
    simp [splitOnDash, if_neg hc, ih2]

theorem splitOnDash_append (a rest : List Char) (h : ∀ c ∈ a, c ≠ '-') :
    splitOnDash (a ++ '-' :: rest) = a :: splitOnDash rest := by
  induction a with
  | nil => simp [splitOnDash]
  | cons c cs ih =>
    have hc : c ≠ '-' := h c (List.mem_cons_self c cs)
    have ih2 := ih (fun x hx => h x (List.mem_cons_of_mem _ hx))
    simp [splitOnDash, if_neg hc, ih2]

theorem parseHexAcc_toHexAux (w : Nat) :
    ∀ n acc rest, n < 16 ^ w →
      parseHexAcc (toHexAux w n ++ rest) acc = parseHexAcc rest (acc * 16 ^ w + n) := by
  induction w with
  | zero =>
    intro n acc rest h
    have hn : n = 0 := by omega
    subst hn
    simp [toHexAux]
  | succ w ih =>
    intro n acc rest h
    have hdiv : n / 16 < 16 ^ w := by
      have h16 : (0 : Nat) < 16 := by norm_num
      rw [Nat.div_lt_iff_lt_mul h16]
      calc n < 16 ^ (w + 1) := h
        _ = 16 ^ w * 16 := by rw [pow_succ]
    simp only [toHexAux, List.append_assoc, List.singleton_append]
    rw [ih (n / 16) acc (hexDigitChar (n % 16) :: rest) hdiv]
    have hmod : n % 16 < 16 := Nat.mod_lt n (by norm_num)
    simp only [parseHexAcc, hexVal_hexDigitChar (n % 16) hmod]
    congr 1
    have harith : (acc * 16 ^ w + n / 16) * 16 + n % 16
        = acc * (16 ^ w * 16) + (16 * (n / 16) + n % 16) := by ring
    rw [harith, Nat.div_add_mod, pow_succ]

theorem parseHexChars_ne_nil (l : List Char) (h : l ≠ []) :
    parseHexChars l = parseHexAcc l 0 := by
  cases l with
  | nil => exact absurd rfl h
  | cons a b => rfl

theorem parseHexChars_toHexAux (w n : Nat) (hw : 0 < w) (h : n < 16 ^ w) :
    parseHexChars (toHexAux w n) = some n := by
  have key := parseHexAcc_toHexAux w n 0 [] h
  rw [List.append_nil] at key
  have hne : toHexAux w n ≠ [] := by
    intro hx
    have hl := toHexAux_length w n
    rw [hx] at hl
    simp at hl
    omega
  rw [parseHexChars_ne_nil _ hne, key]
  simp [parseHexAcc]

/-- A carrier is a string-keyed mapping, as in the spec glossary. -/
def Carrier := List (String × List Char)

/-- The conventional header key carrying the combined context token. -/
def traceparentKey : String := "traceparent"

/-- Look a key up in a carrier. -/
def carrierGet (k : String) : List (String × List Char) → Option (List Char)
  | [] => none
  | kv :: rest => if kv.1 = k then some kv.2 else carrierGet k rest

/-- Flag field: lowercase hex, bit 0 is the sampled bit. -/
def flagsChars (smp : Bool) : List Char :=
  if smp then ['0', '1'] else ['0', '0']

/-- Modelled from the spec: the combined trace-id/span-id/flags token written
by the Codec (spec sections 4.1 and 6). -/
def encodeContext (c : TraceContext) : List Char :=
  toHexAux 32 c.traceId ++ ('-' :: (toHexAux 16 c.spanId ++ ('-' :: flagsChars c.sampled)))

/-- Modelled from the spec: `inject` writes the encoding into the carrier,
overwriting any existing trace-context key. -/
def inject (c : TraceContext) (carrier : Carrier) : Carrier :=
  (traceparentKey, encodeContext c) ::
    List.filter (fun kv => decide (kv.1 ≠ traceparentKey)) carrier

/-- Parse the dash-separated fields of a token: exactly three fields (trace id,
span id, flags), each nonempty hex, otherwise malformed. -/
def parseFields : List (List Char) → Option TraceContext
  | [t, s, f] =>
    match parseHexChars t, parseHexChars s, parseHexChars f with
    | some tid, some sid, some fl => some ⟨tid, sid, fl % 2 == 1⟩
    | _, _, _ => none
  | _ => none

/-- Modelled from the spec: `extract` recovers a context from a carrier;
absent key, wrong field count or non-hex fields all yield `none`, never an
error. -/
def extract (carrier : Carrier) : Option TraceContext :=
  match carrierGet traceparentKey carrier with
  | some token => parseFields (splitOnDash token)
  | none => none

theorem splitOnDash_encodeContext (tid sid : Nat) (smp : Bool) :
    splitOnDash (encodeContext ⟨tid, sid, smp⟩)
      = [toHexAux 32 tid, toHexAux 16 sid, flagsChars smp] := by
  unfold encodeContext
  rw [splitOnDash_append _ _ (toHexAux_no_dash 32 tid)]
  rw [splitOnDash_append _ _ (toHexAux_no_dash 16 sid)]
  rw [splitOnDash_no_dash (flagsChars smp) (by cases smp <;> decide)]

theorem parseFields_encode (tid sid : Nat) (smp : Bool)
    (h1 : tid < 16 ^ 32) (h2 : sid < 16 ^ 16) :
    parseFields [toHexAux 32 tid, toHexAux 16 sid, flagsChars smp]
      = some ⟨tid, sid, smp⟩ := by
  simp only [parseFields]
  rw [parseHexChars_toHexAux 32 tid (by norm_num) h1,
    parseHexChars_toHexAux 16 sid (by norm_num) h2]
  cases smp <;> rfl

/-- Span kinds used by the handlers (SpanKind.SERVER / CLIENT / INTERNAL). -/
inductive SpanKind
  | server
  | client
  | internal
deriving DecidableEq, Repr, BEq

/-- Terminal status of a span: unset until one of the handlers assigns
StatusCode.OK or StatusCode.ERROR with a description. -/
inductive SpanStatus
  | unset
  | ok
  | error (desc : String)
deriving DecidableEq, Repr, BEq

/-- A span as recorded by the Span Engine (spec section 3): identifiers,
name, kind, attributes, status and the open/ended flag. -/
structure SpanData where
  traceId : Nat
  spanId : Nat
  parentSpanId : Option Nat
  name : String
  kind : SpanKind
  attrs : List (String × String)
  status : SpanStatus
  ended : Bool
deriving DecidableEq, Repr

/-- Modelled from the spec: the Span Engine state (the OTel SDK tracer, absent
from src/): a fresh-id generator, the per-request active-span stack and the
list of closed spans handed to the span export pipeline. -/
structure EngineState where
  nextId : Nat
  activeStack : List SpanData
  exported : List SpanData
deriving DecidableEq, Repr

/-- Parent choice passed to start_as_current_span: an explicit extracted
context (possibly empty), or the implicit current active span. -/
inductive ParentSpec
  | fromContext (c : Option TraceContext)
  | current
deriving DecidableEq, Repr

/-- Resolve the (trace id, parent span id) pair a new span inherits, if any. -/
def resolveParent : ParentSpec → EngineState → Option (Nat × Nat)
  | ParentSpec.fromContext (some c), _ => some (c.traceId, c.spanId)
  | ParentSpec.fromContext none, _ => none
  | ParentSpec.current, eng =>
    match eng.activeStack with
    | [] => none
    | p :: _ => some (p.traceId, p.spanId)

/-- Modelled from the spec (section 4.2): start_span inherits the parent trace
id and span id when a parent resolves, otherwise originates a fresh trace id;
the span id is always drawn fresh from the generator. -/
def startSpan (nm : String) (k : SpanKind) (p : ParentSpec) (eng : EngineState) : EngineState :=
  match resolveParent p eng with
  | some pr =>
    let sp : SpanData :=
      { traceId := pr.1, spanId := eng.nextId, parentSpanId := some pr.2,
        name := nm, kind := k, attrs := [], status := SpanStatus.unset, ended := false }
    { eng with nextId := eng.nextId + 1, activeStack := sp :: eng.activeStack }
  | none =>
    let sp : SpanData :=
      { traceId := eng.nextId, spanId := eng.nextId + 1, parentSpanId := none,
        name := nm, kind := k, attrs := [], status := SpanStatus.unset, ended := false }
    { eng with nextId := eng.nextId + 2, activeStack := sp :: eng.activeStack }

/-- set_attribute on the current (top-of-stack) open span. -/
def setAttrTop (k v : String) (eng : EngineState) : EngineState :=
  match eng.activeStack with
  | [] => eng
  | s :: rest =>
    { eng with activeStack := { s with attrs := s.attrs ++ [(k, v)] } :: rest }

/-- set_status on the current (top-of-stack) open span. -/
def setStatusTop (st : SpanStatus) (eng : EngineState) : EngineState :=
  match eng.activeStack with
  | [] => eng
  | s :: rest =>
    { eng with activeStack := { s with status := st } :: rest }

/-- end_span: pop the current span, mark it ended and hand it to the span
export pipeline.  Only ended spans ever reach `exported`. -/
def endSpan (eng : EngineState) : EngineState :=
  match eng.activeStack with
  | [] => eng
  | s :: rest =>
    { eng with activeStack := rest, exported := eng.exported ++ [{ s with ended := true }] }

/-- Modelled from the spec (section 4.3): Metric Aggregator state for the one
counter and one histogram every service creates.  Histogram values are
real-valued durations; the model tracks the count of recorded values. -/
structure MetricState where
  counterValue : Int
  histCount : Nat
deriving DecidableEq, Repr

/-- counter.add: a negative delta violates the contract and is ignored with a
warning, otherwise it accumulates into the current period. -/
def counterAdd (d : Int) (ms : MetricState) : MetricState :=
  if d < 0 then ms else { ms with counterValue := ms.counterValue + d }

/-- histogram.record: one observed value enters the current period. -/
def histRecord (ms : MetricState) : MetricState :=
  { ms with histCount := ms.histCount + 1 }

/-- A point-in-time aggregation emitted on a periodic tick. -/
structure MetricSnapshot where
  counter : Int
  histCount : Nat
deriving DecidableEq, Repr

/-- Modelled from the spec: the periodic tick atomically swaps in fresh
zero-state instruments and emits the prior state as one snapshot. -/
def tick (ms : MetricState) : MetricSnapshot × MetricState :=
  (⟨ms.counterValue, ms.histCount⟩, ⟨0, 0⟩)

/-- Observable telemetry operations a handler performs, in program order. -/
inductive HEvent
  | extractCall (res : Option TraceContext)
  | injectCall
  | spanStart (nm : String) (k : SpanKind)
  | spanEnd
  | statusSet (st : SpanStatus)
  | attrSet (k v : String)
  | counterAddEvt (d : Int)
  | histRecordEvt
  | logWrite
  | netCall
  | raiseEvt (msg : String)
deriving DecidableEq, Repr

/-- Combined telemetry state threaded through a handler run. -/
structure Sys where
  engine : EngineState
  metrics : MetricState
  events : List HEvent
deriving DecidableEq, Repr

def emitEvt (e : HEvent) (s : Sys) : Sys :=
  { s with events := s.events ++ [e] }

def doInject (s : Sys) : Sys :=
  emitEvt HEvent.injectCall s

def doStartSpan (nm : String) (k : SpanKind) (p : ParentSpec) (s : Sys) : Sys :=
  { emitEvt (HEvent.spanStart nm k) s with engine := startSpan nm k p s.engine }

def doSetAttr (k v : String) (s : Sys) : Sys :=
  { emitEvt (HEvent.attrSet k v) s with engine := setAttrTop k v s.engine }

def doSetStatus (st : SpanStatus) (s : Sys) : Sys :=
  { emitEvt (HEvent.statusSet st) s with engine := setStatusTop st s.engine }

def doEndSpan (s : Sys) : Sys :=
  { emitEvt HEvent.spanEnd s with engine := endSpan s.engine }

def doCounterAdd (d : Int) (s : Sys) : Sys :=
  { emitEvt (HEvent.counterAddEvt d) s with metrics := counterAdd d s.metrics }

def doHistRecord (s : Sys) : Sys :=
  { emitEvt HEvent.histRecordEvt s with metrics := histRecord s.metrics }

def doLog (s : Sys) : Sys :=
  emitEvt HEvent.logWrite s

def doNetCall (s : Sys) : Sys :=
  emitEvt HEvent.netCall s

/-- HTTP-level outcome of one handler invocation. -/
inductive Response
  | ok (code : Nat)
  | redirect (loc : String)
  | serverError
  | unhandled (msg : String)
deriving DecidableEq, Repr

def Response.isUnhandled : Response → Bool
  | Response.unhandled _ => true
  | _ => false

/-- Result of running one handler: the response, the business state after the
run, and the telemetry state after the run. -/
structure RunResult (σ : Type) where
  response : Response
  state : σ
  sys : Sys
deriving Repr

namespace Cart

/-- Embeds src/cart-service/app.py lines 93-124 (`get_cart`): extract the
inbound headers, open a SERVER span from the extracted context, set the two
HTTP attributes, run the try body (`bodyFails` models the body raising an
Exception caught by the except clause), then the finally block records the
metrics and the with-block exit ends the span. -/
def get_cart (headers : Carrier) (bodyFails : Bool) (cart : List String) (s0 : Sys) :
    RunResult (List String) :=
  let ctx := extract headers
  let s1 := emitEvt (HEvent.extractCall ctx) s0
  let s2 := doStartSpan ("GET /cart") SpanKind.server (ParentSpec.fromContext ctx) s1
  let s3 := doSetAttr ("http.method") ("GET") s2
  let s4 := doSetAttr ("http.target") ("/cart") s3
  let rs :=
    if bodyFails then
      (Response.serverError, doSetStatus (SpanStatus.error ("e")) (doLog s4))
    else
      (Response.ok 200, doSetStatus SpanStatus.ok (doLog s4))
  let s6 := doHistRecord (doCounterAdd 1 rs.2)
  ⟨rs.1, cart, doEndSpan s6⟩

/-- Embeds src/cart-service/app.py lines 126-159 (`add_to_cart`): same shape
as get_cart with the body appending the posted item to CART. -/
def add_to_cart (headers : Carrier) (bodyFails : Bool) (item : String) (cart : List String)
    (s0 : Sys) : RunResult (List String) :=
  let ctx := extract headers
  let s1 := emitEvt (HEvent.extractCall ctx) s0
  let s2 := doStartSpan ("POST /cart") SpanKind.server (ParentSpec.fromContext ctx) s1
  let s3 := doSetAttr ("http.method") ("POST") s2
  let s4 := doSetAttr ("http.target") ("/cart") s3
  let r :=
    if bodyFails then
      (Response.serverError, cart, doSetStatus (SpanStatus.error ("e")) (doLog s4))
    else
      (Response.ok 201, cart ++ [item], doSetStatus SpanStatus.ok (doLog s4))
  let s6 := doHistRecord (doCounterAdd 1 r.2.2)
  ⟨r.1, r.2.1, doEndSpan s6⟩

/-- Embeds src/cart-service/app.py lines 161-193 (`clear_cart`). -/
def clear_cart (headers : Carrier) (bodyFails : Bool) (cart : List String) (s0 : Sys) :
    RunResult (List String) :=
  let ctx := extract headers
  let s1 := emitEvt (HEvent.extractCall ctx) s0
  let s2 := doStartSpan ("DELETE /cart") SpanKind.server (ParentSpec.fromContext ctx) s1
  let s3 := doSetAttr ("http.method") ("DELETE") s2
  let s4 := doSetAttr ("http.target") ("/cart") s3
  let r :=
    if bodyFails then
      (Response.serverError, cart, doSetStatus (SpanStatus.error ("e")) (doLog s4))
    else
      (Response.ok 200, ([] : List String), doSetStatus SpanStatus.ok (doLog s4))
  let s6 := doHistRecord (doCounterAdd 1 r.2.2)
  ⟨r.1, r.2.1, doEndSpan s6⟩

end Cart

namespace ProductSvc

def nameErrorMsg : String := "NameError: name request is not defined"

/-- Embeds src/product-service/app.py lines 87-118 (`get_products`).  Line 1
of that file imports only Flask and jsonify, so the name `request` used at
line 91 (`carrier = request.headers`) is unbound: every invocation raises a
NameError before the extract call, the span, the try block or the finally
block is reached.  The handler aborts with a propagated error and no
telemetry operation runs; the PRODUCTS list is untouched. -/
def get_products (_headers : Carrier) (_bodyFails : Bool) (products : List String) (s0 : Sys) :
    RunResult (List String) :=
  ⟨Response.unhandled nameErrorMsg, products, emitEvt (HEvent.raiseEvt nameErrorMsg) s0⟩

end ProductSvc

namespace Frontend

/-- Embeds src/frontend/app.py lines 120-168 (`index`): no extract is
performed; a SERVER span is opened from the implicit current context, then
two CLIENT child spans wrap the outbound calls (inject, request, attributes);
`pf` and `cf` model the product-service and cart-service calls raising.  The
finally block records latency then count, and the with-block ends the span. -/
def index (pf cf : Bool) (s0 : Sys) : RunResult Unit :=
  let s1 := doStartSpan ("GET /") SpanKind.server ParentSpec.current s0
  let s2 := doSetAttr ("http.method") ("GET") s1
  let s3 := doSetAttr ("http.target") ("/") s2
  let s4 := doInject (doStartSpan ("get-products") SpanKind.client ParentSpec.current s3)
  let r :=
    if pf then
      (Response.serverError, doSetStatus (SpanStatus.error ("e")) (doLog (doEndSpan s4)))
    else
      let s5 := doEndSpan (doSetAttr ("http.status_code") ("200")
        (doSetAttr ("http.url") ("http://product-service:5001/products") (doNetCall s4)))
      let s6 := doInject (doStartSpan ("get-cart") SpanKind.client ParentSpec.current s5)
      if cf then
        (Response.serverError, doSetStatus (SpanStatus.error ("e")) (doLog (doEndSpan s6)))
      else
        let s7 := doEndSpan (doSetAttr ("http.status_code") ("200")
          (doSetAttr ("http.url") ("http://cart-service:5002/cart") (doNetCall s6)))
        (Response.ok 200, doSetStatus SpanStatus.ok (doLog s7))
  let s8 := doCounterAdd 1 (doHistRecord r.2)
  ⟨r.1, (), doEndSpan s8⟩

/-- Embeds src/frontend/app.py lines 170-212 (`add_to_cart`): `ff` models the
form lookup raising before the child span opens, `pf` the POST raising. -/
def add_to_cart (ff pf : Bool) (s0 : Sys) : RunResult Unit :=
  let s1 := doStartSpan ("POST /add-to-cart") SpanKind.server ParentSpec.current s0
  let s2 := doSetAttr ("http.target") ("/add-to-cart") (doSetAttr ("http.method") ("POST") s1)
  let r :=
    if ff then
      (Response.serverError, doSetStatus (SpanStatus.error ("e")) (doLog s2))
    else
      let s3 := doInject (doStartSpan ("add-to-cart-service") SpanKind.client ParentSpec.current s2)
      if pf then
        (Response.serverError, doSetStatus (SpanStatus.error ("e")) (doLog (doEndSpan s3)))
      else
        let s4 := doEndSpan (doSetAttr ("http.status_code") ("201")
          (doSetAttr ("http.url") ("http://cart-service:5002/cart") (doNetCall s3)))
        (Response.redirect ("/"), doSetStatus SpanStatus.ok (doLog s4))
  let s5 := doCounterAdd 1 (doHistRecord r.2)
  ⟨r.1, (), doEndSpan s5⟩

/-- Embeds src/frontend/app.py lines 214-269 (`place_order`): three CLIENT
child spans in sequence; `f1`, `f2`, `f3` model the three outbound calls
raising. -/
def place_order (f1 f2 f3 : Bool) (s0 : Sys) : RunResult Unit :=
  let s1 := doStartSpan ("POST /place-order") SpanKind.server ParentSpec.current s0
  let s2 := doSetAttr ("http.target") ("/place-order") (doSetAttr ("http.method") ("POST") s1)
  let c1 := doInject (doStartSpan ("get-cart-for-order") SpanKind.client ParentSpec.current s2)
  let r :=
    if f1 then
      (Response.serverError, doSetStatus (SpanStatus.error ("e")) (doLog (doEndSpan c1)))
    else
      let s3 := doEndSpan (doSetAttr ("http.status_code") ("200")
        (doSetAttr ("http.url") ("http://cart-service:5002/cart") (doNetCall c1)))
      let c2 := doInject (doStartSpan ("place-order-service") SpanKind.client ParentSpec.current s3)
      if f2 then
        (Response.serverError, doSetStatus (SpanStatus.error ("e")) (doLog (doEndSpan c2)))
      else
        let s4 := doEndSpan (doSetAttr ("http.status_code") ("200")
          (doSetAttr ("http.url") ("http://order-service:5003/orders") (doNetCall c2)))
        let c3 := doInject (doStartSpan ("clear-cart-service") SpanKind.client ParentSpec.current s4)
        if f3 then
          (Response.serverError, doSetStatus (SpanStatus.error ("e")) (doLog (doEndSpan c3)))
        else
          let s5 := doEndSpan (doSetAttr ("http.status_code") ("200")
            (doSetAttr ("http.url") ("http://cart-service:5002/cart") (doNetCall c3)))
          (Response.ok 200, doSetStatus SpanStatus.ok (doLog s5))
  let s6 := doCounterAdd 1 (doHistRecord r.2)
  ⟨r.1, (), doEndSpan s6⟩

end Frontend

/-- Scan an event list: does every SERVER span start come after some extract
call?  The flag carries whether an extract call has been seen so far. -/
def extractSeenBeforeServer : List HEvent → Bool → Bool
  | [], _ => true
  | HEvent.extractCall _ :: rest, _ => extractSeenBeforeServer rest true
  | HEvent.spanStart _ SpanKind.server :: rest, seen => seen && extractSeenBeforeServer rest seen
  | _ :: rest, seen => extractSeenBeforeServer rest seen

/-- Does the event list contain the start of a SERVER span? -/
def hasServerStart : List HEvent → Bool
  | [] => false
  | HEvent.spanStart _ SpanKind.server :: _ => true
  | _ :: rest => hasServerStart rest

/-- Startup configuration options recognized by the spec (section 6). -/
structure Config where
  collector_endpoint : String
  service_name : String
  environment : String
deriving DecidableEq, Repr

/-- The three collector endpoint URLs one service wires its exporters to. -/
structure ExportEndpoints where
  traces : String
  metricsUrl : String
  logs : String
deriving DecidableEq, Repr

/-- Embeds src/cart-service/app.py lines 47, 54 and 79: the exporter endpoint
arguments are string literals.  No configuration value reaches them (the os
module is imported at line 4 but never read), which the constant function
makes explicit. -/
def cartServiceEndpoints (_cfg : Config) : ExportEndpoints :=
  { traces := "http://localhost:4318/v1/traces",
    metricsUrl := "http://localhost:4318/v1/metrics",
    logs := "http://localhost:4318/v1/logs" }

/-- Embeds src/frontend/app.py lines 47, 54 and 79: literal cluster-local
endpoint URLs, independent of configuration. -/
def frontendEndpoints (_cfg : Config) : ExportEndpoints :=
  { traces := "http://otlp-daemon-service.opentelemetry.svc.cluster.local:4318/v1/traces",
    metricsUrl := "http://otlp-daemon-service.opentelemetry.svc.cluster.local:4318/v1/metrics",
    logs := "http://otlp-daemon-service.opentelemetry.svc.cluster.local:4318/v1/logs" }

/-- Embeds src/product-service/app.py lines 46, 53 and 71: literal
cluster-local endpoint URLs, independent of configuration. -/
def productServiceEndpoints (_cfg : Config) : ExportEndpoints :=
  { traces := "http://otlp-daemon-service.opentelemetry.svc.cluster.local:4318/v1/traces",
    metricsUrl := "http://otlp-daemon-service.opentelemetry.svc.cluster.local:4318/v1/metrics",
    logs := "http://otlp-daemon-service.opentelemetry.svc.cluster.local:4318/v1/logs" }

/-- Modelled from the spec (section 4.5): state of one Batch Export Pipeline
instance — the current batch, the size trigger, the pending-flush flag set
for the background worker, and the dropped-records count. -/
structure Pipeline where
  batch : List Nat
  maxBatchSize : Nat
  flushRequested : Bool
  dropped : Nat
deriving DecidableEq, Repr

/-- A network transmission performed by the pipeline. -/
inductive NetEffect
  | post (records : List Nat)
deriving DecidableEq, Repr

/-- Modelled from the spec: enqueue appends to the current batch and, when the
batch reaches the maximum size, requests a flush from the background worker;
the caller performs no network transmission and never blocks. -/
def enqueue (r : Nat) (p : Pipeline) : Pipeline × List NetEffect :=
  ({ p with
      batch := p.batch ++ [r]
      flushRequested := p.flushRequested || decide (p.batch.length + 1 ≥ p.maxBatchSize) }, [])

/-- Modelled from the spec: the periodic flush timer marks the flush request
and performs no transmission on the producer path. -/
def timerFire (p : Pipeline) : Pipeline × List NetEffect :=
  ({ p with flushRequested := true }, [])

/-- Modelled from the spec: the background flush swaps the batch for a fresh
empty one and performs the single network transmission; on failure the batch
is dropped and the drop counter grows by its size. -/
def backgroundFlush (ok : Bool) (p : Pipeline) : Pipeline × List NetEffect :=
  if p.flushRequested then
    ({ p with
        batch := []
        flushRequested := false
        dropped := p.dropped + (if ok then 0 else p.batch.length) }, [NetEffect.post p.batch])
  else (p, [])

/-- Telemetry state at the start of one request: fresh id generator value `n`,
empty active stack (each request begins outside any span), prior exported
spans and metric accumulations abstracted by `ex`, `cv`, `hc`; empty event
log for this request. -/
def mkSys (n : Nat) (cv : Int) (hc : Nat) : Sys :=
  ⟨⟨n, [], []⟩, ⟨cv, hc⟩, []⟩

/-- A status is terminal when it is OK or ERROR, not the initial UNSET. -/
def terminalStatus : SpanStatus → Bool
  | SpanStatus.unset => false
  | SpanStatus.ok => true
  | SpanStatus.error _ => true

/-- Export discipline actually observed in the handlers: every exported span
is ended, SERVER spans carry a terminal status, CLIENT spans are ended with
status still UNSET. -/
def spansWellClosed (l : List SpanData) : Bool :=
  l.all (fun s => s.ended
    && (!(s.kind == SpanKind.server) || terminalStatus s.status)
    && (!(s.kind == SpanKind.client) || s.status == SpanStatus.unset))

/-- Claim C1: extract treats a missing or malformed carrier as absence and the
cart handlers then originate a root SERVER span and complete normally — but
the product-service route never gets that far: the unbound name `request` at
src/product-service/app.py line 91 raises on every invocation, so GET
/products always exits with an unhandled NameError and performs no telemetry
operation. -/
theorem c1_decode_absence_and_product_crash :
    (∀ headers b cart n hc, ∀ cv : Int,
      (Cart.get_cart headers b cart (mkSys n cv hc)).response.isUnhandled = false)
    ∧ extract [] = none
    ∧ extract [(traceparentKey, ['z', 'z'])] = none
    ∧ extract [(traceparentKey, ['1', '-', '2'])] = none
    ∧ extract [(traceparentKey, ['z', '-', '2', '-', '1'])] = none
    ∧ ((Cart.get_cart [] false [] (mkSys 0 0 0)).sys.engine.exported.all
        (fun s => s.parentSpanId == none && s.kind == SpanKind.server)) = true
    ∧ ((Cart.get_cart [(traceparentKey, ['z', 'z'])] false [] (mkSys 0 0 0)).sys.engine.exported.all
        (fun s => s.parentSpanId == none && s.kind == SpanKind.server)) = true
    ∧ (Cart.get_cart [] false [] (mkSys 0 0 0)).response = Response.ok 200
    ∧ (ProductSvc.get_products [] false [] (mkSys 0 0 0)).response
        = Response.unhandled ProductSvc.nameErrorMsg
    ∧ (ProductSvc.get_products [] false [] (mkSys 0 0 0)).sys.metrics = (mkSys 0 0 0).metrics
    ∧ (ProductSvc.get_products [] false [] (mkSys 0 0 0)).sys.engine = (mkSys 0 0 0).engine := by
  refine ⟨?_, rfl, rfl, rfl, rfl, rfl, rfl, rfl, rfl, rfl, rfl⟩
  intro headers b cart n hc cv
  cases b <;> rfl

/-- Claim C2: injecting a context into an empty carrier and extracting it back
reproduces the context exactly, for every context whose ids fit the 128-bit
trace-id and 64-bit span-id ranges of the data model. -/
theorem c2_inject_extract_roundtrip (c : TraceContext)
    (h1 : c.traceId < 16 ^ 32) (h2 : c.spanId < 16 ^ 16) :
    extract (inject c []) = some c := by
  obtain ⟨tid, sid, smp⟩ := c
  show parseFields (splitOnDash (encodeContext ⟨tid, sid, smp⟩)) = some ⟨tid, sid, smp⟩
  rw [splitOnDash_encodeContext, parseFields_encode tid sid smp h1 h2]

/-- Witness for C2 at a concrete context. -/
theorem c2_roundtrip_witness :
    extract (inject ⟨5, 7, true⟩ []) = some ⟨5, 7, true⟩ :=
  c2_inject_extract_roundtrip ⟨5, 7, true⟩ (by norm_num) (by norm_num)

/-- Claim C5: within a fresh period, add(5) then add(3) makes the next tick
report the cumulative value 8 and hand the next period a zeroed counter, whose
own tick reports 0; in general a tick emits exactly the prior period's
accumulation and resets it, so each recorded value lands in one snapshot. -/
theorem c5_counter_snapshot_period :
    (∀ ms : MetricState,
      (tick (counterAdd 3 (counterAdd 5 (tick ms).2))).1.counter = 8
      ∧ (tick (counterAdd 3 (counterAdd 5 (tick ms).2))).2.counterValue = 0
      ∧ (tick ((tick (counterAdd 3 (counterAdd 5 (tick ms).2))).2)).1.counter = 0)
    ∧ (∀ ms : MetricState,
      (tick ms).1.counter = ms.counterValue ∧ (tick ms).2.counterValue = 0) := by
  exact ⟨fun ms => ⟨rfl, rfl, rfl⟩, fun ms => ⟨rfl, rfl⟩⟩

/-- Claim C6 fails as stated: two startup configurations that differ in their
collector endpoint yield identical exporter endpoints, and the configured
address never reaches the exporter — the address is a hard-coded literal. -/
theorem c6_counterexample :
    cartServiceEndpoints ⟨("http://collector-a:4318"), ("cart-service"), ("dev")⟩
      = cartServiceEndpoints ⟨("http://collector-b:4318"), ("cart-service"), ("dev")⟩
    ∧ (cartServiceEndpoints ⟨("http://collector-a:4318"), ("cart-service"), ("dev")⟩).traces
      ≠ ("http://collector-a:4318") ++ ("/v1/traces") := by
  exact ⟨rfl, by decide⟩

/-- Claim C6 amended: every pipeline posts to a hard-coded literal endpoint —
localhost for cart-service, the cluster-local OTLP daemon address for frontend
and product-service — regardless of any startup configuration. -/
theorem c6_endpoints_hardcoded (cfg : Config) :
    cartServiceEndpoints cfg
      = ⟨("http://localhost:4318/v1/traces"), ("http://localhost:4318/v1/metrics"),
          ("http://localhost:4318/v1/logs")⟩
    ∧ frontendEndpoints cfg = productServiceEndpoints cfg
    ∧ (frontendEndpoints cfg).traces
      = ("http://otlp-daemon-service.opentelemetry.svc.cluster.local:4318/v1/traces") := by
  exact ⟨rfl, rfl, rfl⟩

/-- Claim C9: the producer-path pipeline operations (enqueue, the timer mark)
perform no network transmission; only the background flush posts a batch, and
a failed post drops the batch into the drop counter without any error
escaping. -/
theorem c9_producer_no_network :
    (∀ r p, (enqueue r p).2 = [])
    ∧ (∀ p, (timerFire p).2 = [])
    ∧ (backgroundFlush true ⟨[1, 2], 10, true, 0⟩).2 = [NetEffect.post [1, 2]]
    ∧ backgroundFlush false ⟨[1, 2], 10, true, 5⟩
      = (⟨[], 10, false, 7⟩, [NetEffect.post [1, 2]]) := by
  exact ⟨fun r p => rfl, fun p => rfl, rfl, rfl⟩

/-- Claim C10: the read-only routes leave the business state unchanged: GET
/cart returns with CART identical, and GET /products leaves PRODUCTS identical
(there the handler aborts on the unbound name before touching anything). -/
theorem c10_readonly_routes_frame (headers : Carrier) (b : Bool)
    (cart products : List String) (n hc : Nat) (cv : Int) :
    (Cart.get_cart headers b cart (mkSys n cv hc)).state = cart
    ∧ (ProductSvc.get_products headers b products (mkSys n cv hc)).state = products := by
  exact ⟨by cases b <;> rfl, rfl⟩

/-- Claim C3: a span opened as a child while `p` is the current active span
inherits the trace id of `p`, records the span id of `p` as its parent span
id, and receives a freshly drawn span id distinct from every span id already
issued in the engine; the freshness invariant is preserved, so a span id is
never reused within the trace. -/
theorem c3_child_span_inherits (nid : Nat) (stackRest exp : List SpanData) (p : SpanData)
    (nm : String) (k : SpanKind)
    (hfresh : ∀ t ∈ (p :: stackRest) ++ exp, t.spanId < nid) :
    ∃ s, (startSpan nm k ParentSpec.current ⟨nid, p :: stackRest, exp⟩).activeStack.head? = some s
      ∧ s.traceId = p.traceId
      ∧ s.parentSpanId = some p.spanId
      ∧ (∀ t ∈ (p :: stackRest) ++ exp, t.spanId ≠ s.spanId)
      ∧ (∀ t ∈ (startSpan nm k ParentSpec.current ⟨nid, p :: stackRest, exp⟩).activeStack
            ++ (startSpan nm k ParentSpec.current ⟨nid, p :: stackRest, exp⟩).exported,
          t.spanId < (startSpan nm k ParentSpec.current ⟨nid, p :: stackRest, exp⟩).nextId) := by
  have hcomp : startSpan nm k ParentSpec.current ⟨nid, p :: stackRest, exp⟩
      = ⟨nid + 1,
          ⟨p.traceId, nid, some p.spanId, nm, k, [], SpanStatus.unset, false⟩ :: p :: stackRest,
          exp⟩ := rfl
  refine ⟨⟨p.traceId, nid, some p.spanId, nm, k, [], SpanStatus.unset, false⟩, ?_, rfl, rfl, ?_, ?_⟩
  · rw [hcomp]
    rfl
  · intro t ht
    have hlt := hfresh t ht
    show t.spanId ≠ nid
    omega
  · rw [hcomp]
    intro t ht
    simp only [List.cons_append, List.mem_cons] at ht
    show t.spanId < nid + 1
    rcases ht with h | h
    · subst h
      show nid < nid + 1
      omega
    · have hlt := hfresh t (by simpa using h)
      omega

/-- Concrete engine state for the C3 witness: one root span on the stack. -/
def rootSpanW : SpanData :=
  ⟨9, 0, none, "root", SpanKind.server, [], SpanStatus.unset, false⟩

/-- Witness for C3 at a concrete engine state. -/
theorem c3_child_span_witness :
    ∃ s, (startSpan ("child") SpanKind.client ParentSpec.current
        ⟨1, [rootSpanW], []⟩).activeStack.head? = some s
      ∧ s.traceId = rootSpanW.traceId
      ∧ s.parentSpanId = some rootSpanW.spanId
      ∧ (∀ t ∈ (rootSpanW :: []) ++ ([] : List SpanData), t.spanId ≠ s.spanId)
      ∧ (∀ t ∈ (startSpan ("child") SpanKind.client ParentSpec.current
            ⟨1, [rootSpanW], []⟩).activeStack
          ++ (startSpan ("child") SpanKind.client ParentSpec.current
            ⟨1, [rootSpanW], []⟩).exported,
          t.spanId < (startSpan ("child") SpanKind.client ParentSpec.current
            ⟨1, [rootSpanW], []⟩).nextId) :=
  c3_child_span_inherits 1 [] [] rootSpanW ("child") SpanKind.client (by decide)

/-- Claim C4 fails as stated: the frontend index handler opens the SERVER span
for the inbound request without any extract call on the carrier. -/
theorem c4_counterexample :
    hasServerStart (Frontend.index false false (mkSys 0 0 0)).sys.events = true
    ∧ extractSeenBeforeServer (Frontend.index false false (mkSys 0 0 0)).sys.events false
      = false :=
  ⟨rfl, rfl⟩

/-- Claim C4 amended: the cart-service handlers pass the inbound carrier
through extract before opening their SERVER span, and when a remote context is
present the SERVER span is its child; the frontend handlers open their SERVER
spans with no extraction at all (and product-service aborts before its
extract, per C1). -/
theorem c4_extract_precedes_server_span (headers : Carrier) (b : Bool)
    (cart : List String) (item : String) (n hc : Nat) (cv : Int) (c : TraceContext)
    (hx : extract headers = some c) :
    (extractSeenBeforeServer (Cart.get_cart headers b cart (mkSys n cv hc)).sys.events false
        = true
      ∧ hasServerStart (Cart.get_cart headers b cart (mkSys n cv hc)).sys.events = true)
    ∧ (extractSeenBeforeServer
          (Cart.add_to_cart headers b item cart (mkSys n cv hc)).sys.events false = true
      ∧ hasServerStart (Cart.add_to_cart headers b item cart (mkSys n cv hc)).sys.events = true)
    ∧ (extractSeenBeforeServer (Cart.clear_cart headers b cart (mkSys n cv hc)).sys.events false
        = true
      ∧ hasServerStart (Cart.clear_cart headers b cart (mkSys n cv hc)).sys.events = true)
    ∧ (Cart.get_cart headers b cart (mkSys n cv hc)).sys.engine.exported
      = [⟨c.traceId, n, some c.spanId, ("GET /cart"), SpanKind.server,
          [(("http.method"), ("GET")), (("http.target"), ("/cart"))],
          (if b then SpanStatus.error ("e") else SpanStatus.ok), true⟩] := by
  refine ⟨⟨?_, ?_⟩, ⟨?_, ?_⟩, ⟨?_, ?_⟩, ?_⟩
  · cases b <;> rfl
  · cases b <;> rfl
  · cases b <;> rfl
  · cases b <;> rfl
  · cases b <;> rfl
  · cases b <;> rfl
  · simp only [Cart.get_cart]
    rw [hx]
    cases b <;> rfl

/-- Witness for C4 at a carrier produced by inject. -/
theorem c4_extract_witness :
    (extractSeenBeforeServer
        (Cart.get_cart (inject ⟨5, 7, true⟩ []) false [] (mkSys 3 0 0)).sys.events false = true
      ∧ hasServerStart
        (Cart.get_cart (inject ⟨5, 7, true⟩ []) false [] (mkSys 3 0 0)).sys.events = true)
    ∧ (extractSeenBeforeServer
        (Cart.add_to_cart (inject ⟨5, 7, true⟩ []) false ("x") [] (mkSys 3 0 0)).sys.events false
          = true
      ∧ hasServerStart
        (Cart.add_to_cart (inject ⟨5, 7, true⟩ []) false ("x") [] (mkSys 3 0 0)).sys.events
          = true)
    ∧ (extractSeenBeforeServer
        (Cart.clear_cart (inject ⟨5, 7, true⟩ []) false [] (mkSys 3 0 0)).sys.events false = true
      ∧ hasServerStart
        (Cart.clear_cart (inject ⟨5, 7, true⟩ []) false [] (mkSys 3 0 0)).sys.events = true)
    ∧ (Cart.get_cart (inject ⟨5, 7, true⟩ []) false [] (mkSys 3 0 0)).sys.engine.exported
      = [⟨5, 3, some 7, ("GET /cart"), SpanKind.server,
          [(("http.method"), ("GET")), (("http.target"), ("/cart"))], SpanStatus.ok, true⟩] :=
  c4_extract_precedes_server_span (inject ⟨5, 7, true⟩ []) false [] ("x") 3 0 0 ⟨5, 7, true⟩ rfl

/-- Claim C7: every cart-service and frontend route increments the request
counter by exactly one and records exactly one latency value on every exit
path — but the product-service route aborts before its finally block on every
request (the C1 defect) and records neither count nor duration. -/
theorem c7_metrics_once_per_request :
    (∀ headers b cart item n hc, ∀ cv : Int,
      (Cart.get_cart headers b cart (mkSys n cv hc)).sys.metrics = ⟨cv + 1, hc + 1⟩
      ∧ (Cart.add_to_cart headers b item cart (mkSys n cv hc)).sys.metrics = ⟨cv + 1, hc + 1⟩
      ∧ (Cart.clear_cart headers b cart (mkSys n cv hc)).sys.metrics = ⟨cv + 1, hc + 1⟩)
    ∧ (∀ pf cf ff f1 f2 f3 n hc, ∀ cv : Int,
      (Frontend.index pf cf (mkSys n cv hc)).sys.metrics = ⟨cv + 1, hc + 1⟩
      ∧ (Frontend.add_to_cart ff pf (mkSys n cv hc)).sys.metrics = ⟨cv + 1, hc + 1⟩
      ∧ (Frontend.place_order f1 f2 f3 (mkSys n cv hc)).sys.metrics = ⟨cv + 1, hc + 1⟩)
    ∧ (∀ headers b products n hc, ∀ cv : Int,
      (ProductSvc.get_products headers b products (mkSys n cv hc)).sys.metrics = ⟨cv, hc⟩
      ∧ (ProductSvc.get_products headers b products (mkSys n cv hc)).response.isUnhandled
        = true) := by
  refine ⟨?_, ?_, ?_⟩
  · intro headers b cart item n hc cv
    refine ⟨?_, ?_, ?_⟩ <;> cases b <;> rfl
  · intro pf cf ff f1 f2 f3 n hc cv
    refine ⟨?_, ?_, ?_⟩
    · cases pf <;> cases cf <;> rfl
    · cases ff <;> cases pf <;> rfl
    · cases f1 <;> cases f2 <;> cases f3 <;> rfl
  · intro headers b products n hc cv
    exact ⟨rfl, rfl⟩

/-- Claim C8 fails as stated: on the frontend index success path the CLIENT
child spans are handed to export ended but with status UNSET — no terminal OK
or ERROR status is ever set on them. -/
theorem c8_counterexample :
    ((Frontend.index false false (mkSys 0 0 0)).sys.engine.exported.any
      (fun s => s.kind == SpanKind.client && s.status == SpanStatus.unset)) = true := rfl

/-- Claim C8 amended: every span a handler opens is ended on every exit path —
after the run the active stack is empty again and only ended spans reach the
export queue — and the SERVER span always carries a terminal OK or ERROR
status; the CLIENT child spans, however, end with status still UNSET. -/
theorem c8_spans_closed_on_all_paths (headers : Carrier) (b pf cf ff f1 f2 f3 : Bool)
    (cart : List String) (n hc : Nat) (cv : Int) :
    ((Cart.get_cart headers b cart (mkSys n cv hc)).sys.engine.activeStack = []
      ∧ spansWellClosed (Cart.get_cart headers b cart (mkSys n cv hc)).sys.engine.exported
        = true)
    ∧ ((Frontend.index pf cf (mkSys n cv hc)).sys.engine.activeStack = []
      ∧ spansWellClosed (Frontend.index pf cf (mkSys n cv hc)).sys.engine.exported = true)
    ∧ ((Frontend.add_to_cart ff pf (mkSys n cv hc)).sys.engine.activeStack = []
      ∧ spansWellClosed (Frontend.add_to_cart ff pf (mkSys n cv hc)).sys.engine.exported = true)
    ∧ ((Frontend.place_order f1 f2 f3 (mkSys n cv hc)).sys.engine.activeStack = []
      ∧ spansWellClosed (Frontend.place_order f1 f2 f3 (mkSys n cv hc)).sys.engine.exported
        = true) := by
  refine ⟨?_, ?_, ?_, ?_⟩
  · simp only [Cart.get_cart]
    cases hx : extract headers with
    | none => cases b <;> exact ⟨rfl, rfl⟩
    | some c => cases b <;> exact ⟨rfl, rfl⟩
  · cases pf <;> cases cf <;> exact ⟨rfl, rfl⟩
  · cases ff <;> cases pf <;> exact ⟨rfl, rfl⟩
  · cases f1 <;> cases f2 <;> cases f3 <;> exact ⟨rfl, rfl⟩

end Otel


